import Mathlib

/-!
Verification development for the cesium-unreal excerpt: the `VecMath`
coordinate-conversion utility (declared in
`Source/CesiumRuntime/Private/VecMath.h`) and the `AssetDataList` editor
widget (`Source/CesiumEditor/Private/AssetDataList.cpp`).

Floating-point modelling: the specification states that float→double
widening is exact for every finite single-precision value and that all
mixed arithmetic is carried out in double precision after widening both
operands.  Every concrete scenario in the specification uses values that
are exactly representable in both IEEE-754 formats, and every algebraic
property claimed (commutativity of addition, exact negation of the two
subtraction orders, equality of translation overloads) holds of exact
arithmetic.  Accordingly single- and double-precision values are both
modelled as exact rationals (`ℚ`), with integer vector components as `ℤ`.
-/

namespace VecMath

/-- A `glm::dvec3`: 3 double-precision components. -/
structure dvec3 where
  x : ℚ
  y : ℚ
  z : ℚ
deriving DecidableEq, Repr

/-- A `glm::dvec4`: 4 double-precision components, `w` homogeneous. -/
structure dvec4 where
  x : ℚ
  y : ℚ
  z : ℚ
  w : ℚ
deriving DecidableEq, Repr

/-- An Unreal `FVector`: 3 single-precision components (modelled exactly;
widening to double is exact for all finite single-precision values). -/
structure FVector where
  x : ℚ
  y : ℚ
  z : ℚ
deriving DecidableEq, Repr

/-- An Unreal `FIntVector`: 3 integer components. -/
structure FIntVector where
  x : ℤ
  y : ℤ
  z : ℤ
deriving DecidableEq, Repr

/-- An Unreal `FMatrix`: a single-precision 4x4 matrix in row-major
storage; `row3` is the translation row. Components modelled exactly. -/
structure FMatrix where
  row0 : dvec4
  row1 : dvec4
  row2 : dvec4
  row3 : dvec4
deriving DecidableEq, Repr

/-- A `glm::dmat4`: a double-precision 4x4 matrix in column-major
storage; `col3` is the translation column. -/
structure dmat4 where
  col0 : dvec4
  col1 : dvec4
  col2 : dvec4
  col3 : dvec4
deriving DecidableEq, Repr

instance : Add dvec3 := ⟨fun a b => ⟨a.x + b.x, a.y + b.y, a.z + b.z⟩⟩

instance : Neg dvec3 := ⟨fun a => ⟨-a.x, -a.y, -a.z⟩⟩

instance : Add dvec4 := ⟨fun a b => ⟨a.x + b.x, a.y + b.y, a.z + b.z, a.w + b.w⟩⟩

instance : Neg dvec4 := ⟨fun a => ⟨-a.x, -a.y, -a.z, -a.w⟩⟩

/-- The single-precision 4x4 identity matrix. -/
def identityFMatrix : FMatrix :=
  ⟨⟨1, 0, 0, 0⟩, ⟨0, 1, 0, 0⟩, ⟨0, 0, 1, 0⟩, ⟨0, 0, 0, 1⟩⟩

/-- Modelled from the spec: `VecMath::createVector3D(const FVector&)`
(the implementation file `VecMath.cpp` is not part of the excerpt).
"Widens a 3-component single-precision vector to double precision,
component-wise, exactly." -/
def createVector3D_f (v : FVector) : dvec3 := ⟨v.x, v.y, v.z⟩

/-- Modelled from the spec: `VecMath::createVector3D(const FIntVector&)`
(implementation not in the excerpt). "Widens a 3-component integer
vector to double precision, component-wise, exactly." -/
def createVector3D_i (v : FIntVector) : dvec3 := ⟨(v.x : ℚ), (v.y : ℚ), (v.z : ℚ)⟩

/-- Widening of an `FVector` to a homogeneous double 4-vector with
`w = 1.0` (the conventional homogeneous coordinate of a point, per the
spec glossary). -/
def widen4D (v : FVector) : dvec4 := ⟨v.x, v.y, v.z, 1⟩

/-- Widening of an `FIntVector` to a double 4-vector: per the spec, the
integer operand of a 4-component mixed operation has its w-equivalent
treated as absent/zero ("the integer vector contributes to x, y, z
only"). -/
def widen4D_i (v : FIntVector) : dvec4 := ⟨(v.x : ℚ), (v.y : ℚ), (v.z : ℚ), 0⟩

/-- Modelled from the spec: `VecMath::createMatrix4D(const FMatrix&)`
(implementation not in the excerpt). Converts the single-precision
row-major matrix into a double-precision column-major matrix,
transposing storage order while preserving all 16 component values
exactly: column `i` of the result holds the components of row `i` of the
source. -/
def createMatrix4D (m : FMatrix) : dmat4 := ⟨m.row0, m.row1, m.row2, m.row3⟩

/-- Modelled from the spec: the scalar-translation overload
`VecMath::createMatrix4D(const FMatrix&, double, double, double, double)`
(implementation not in the excerpt). "Uses the elements of the given
matrix, but replaces the translation column with the given
translation." -/
def createMatrix4D_scalars (m : FMatrix) (tx ty tz tw : ℚ) : dmat4 :=
  { createMatrix4D m with col3 := ⟨tx, ty, tz, tw⟩ }

/-- Modelled from the spec: the `glm::dvec3` translation overload
`VecMath::createMatrix4D(const FMatrix&, const glm::dvec3&)`
(implementation not in the excerpt). The 3-component override carries
`w` implicitly `1.0`. -/
def createMatrix4D_vec3 (m : FMatrix) (t : dvec3) : dmat4 :=
  createMatrix4D_scalars m t.x t.y t.z 1

/-- Modelled from the spec: the `glm::dvec4` translation overload
`VecMath::createMatrix4D(const FMatrix&, const glm::dvec4&)`
(implementation not in the excerpt). The 4-component override carries an
explicit `w`. -/
def createMatrix4D_vec4 (m : FMatrix) (t : dvec4) : dmat4 :=
  createMatrix4D_scalars m t.x t.y t.z t.w

/-- Modelled from the spec: `VecMath::createTranslationMatrix4D`
(implementation not in the excerpt). "An identity matrix where the
translation column is set to be the given translation vector." -/
def createTranslationMatrix4D (tx ty tz tw : ℚ) : dmat4 :=
  ⟨⟨1, 0, 0, 0⟩, ⟨0, 1, 0, 0⟩, ⟨0, 0, 1, 0⟩, ⟨tx, ty, tz, tw⟩⟩

/-- Modelled from the spec: `VecMath::add3D(const FVector&, const FIntVector&)`
(implementation not in the excerpt). Both operands are widened to double
precision and then added component-wise, the computation performed
entirely in double precision. -/
def add3D_fi (f : FVector) (i : FIntVector) : dvec3 :=
  ⟨f.x + (i.x : ℚ), f.y + (i.y : ℚ), f.z + (i.z : ℚ)⟩

/-- Modelled from the spec: `VecMath::add3D(const FIntVector&, const FVector&)`
(implementation not in the excerpt). The integer-first argument order of
the widen-then-add contract. -/
def add3D_if (i : FIntVector) (f : FVector) : dvec3 :=
  ⟨(i.x : ℚ) + f.x, (i.y : ℚ) + f.y, (i.z : ℚ) + f.z⟩

/-- Modelled from the spec: `VecMath::add3D(const glm::vec3&, const FIntVector&)`
(implementation not in the excerpt). The first operand is already a
double-precision `glm` vector; same widen-then-add contract. -/
def add3D_di (d : dvec3) (i : FIntVector) : dvec3 :=
  ⟨d.x + (i.x : ℚ), d.y + (i.y : ℚ), d.z + (i.z : ℚ)⟩

/-- Modelled from the spec: `VecMath::add4D(const FVector&, const FIntVector&)`
(implementation not in the excerpt). Widen-then-add producing a
4-vector; the integer vector contributes to x, y, z only, with zero
contribution to the homogeneous component. -/
def add4D_fi (f : FVector) (i : FIntVector) : dvec4 :=
  ⟨f.x + (i.x : ℚ), f.y + (i.y : ℚ), f.z + (i.z : ℚ), 1 + 0⟩

/-- Modelled from the spec: `VecMath::add4D(const FIntVector&, const FVector&)`
(implementation not in the excerpt). The integer-first argument order. -/
def add4D_if (i : FIntVector) (f : FVector) : dvec4 :=
  ⟨(i.x : ℚ) + f.x, (i.y : ℚ) + f.y, (i.z : ℚ) + f.z, 0 + 1⟩

/-- Modelled from the spec: `VecMath::add4D(const glm::vec4&, const FIntVector&)`
(implementation not in the excerpt). The first operand is already a
double-precision 4-vector with an explicit homogeneous component; the
integer vector contributes zero to `w`. -/
def add4D_di (d : dvec4) (i : FIntVector) : dvec4 :=
  ⟨d.x + (i.x : ℚ), d.y + (i.y : ℚ), d.z + (i.z : ℚ), d.w + 0⟩

/-- Modelled from the spec: `VecMath::subtract3D(const FVector&, const FIntVector&)`
(implementation not in the excerpt). Both operands widened to double
precision, then subtracted component-wise (`f - i`). -/
def subtract3D_fi (f : FVector) (i : FIntVector) : dvec3 :=
  ⟨f.x - (i.x : ℚ), f.y - (i.y : ℚ), f.z - (i.z : ℚ)⟩

/-- Modelled from the spec: `VecMath::subtract3D(const FIntVector&, const FVector&)`
(implementation not in the excerpt). The opposite argument order
(`i - f`). -/
def subtract3D_if (i : FIntVector) (f : FVector) : dvec3 :=
  ⟨(i.x : ℚ) - f.x, (i.y : ℚ) - f.y, (i.z : ℚ) - f.z⟩

/-- Modelled from the spec: `VecMath::subtract4D(const FVector&, const FIntVector&)`
(implementation not in the excerpt). Widen-then-subtract producing a
4-vector (`f - i`); the integer operand contributes zero to `w`. -/
def subtract4D_fi (f : FVector) (i : FIntVector) : dvec4 :=
  ⟨f.x - (i.x : ℚ), f.y - (i.y : ℚ), f.z - (i.z : ℚ), 1 - 0⟩

/-- Modelled from the spec: `VecMath::subtract4D(const FIntVector&, const FVector&)`
(implementation not in the excerpt). The opposite argument order
(`i - f`). -/
def subtract4D_if (i : FIntVector) (f : FVector) : dvec4 :=
  ⟨(i.x : ℚ) - f.x, (i.y : ℚ) - f.y, (i.z : ℚ) - f.z, 0 - 1⟩

end VecMath

namespace AssetDataList

/-- An `FAssetData` value as returned by
`IAssetRegistry::GetAssetByObjectPath`; identified here by its full
name. -/
structure FAssetData where
  fullName : String
deriving DecidableEq, Repr

/-- The environment supplied by the engine's asset registry module: the
`IsLoadingAssets()` flag, the `GetAssetByObjectPath` lookup, and whether
`FAssetData::GetAsset()` returns a non-null object for a given asset
datum. -/
structure AssetRegistry where
  isLoadingAssets : Bool
  getAssetByObjectPath : String → FAssetData
  getAssetNonNull : FAssetData → Bool

/-- The mutable state of an `AssetDataList` widget: the
`_pendingObjectPaths` vector and the `_items` array backing the list
view. -/
structure State where
  pendingObjectPaths : List String
  items : List FAssetData
deriving DecidableEq, Repr

/-- `AssetDataList::_AddAssetInternal` (`AssetDataList.cpp:79-122`):
returns unchanged if the registry is still loading assets; otherwise
resolves the object path to an `FAssetData` and appends it to `_items`
exactly when `GetAsset()` yields a non-null object. -/
def addAssetInternal (reg : AssetRegistry) (objectPath : String) (s : State) : State :=
  if reg.isLoadingAssets then s
  else
    let assetData := reg.getAssetByObjectPath objectPath
    if reg.getAssetNonNull assetData then
      { s with items := s.items ++ [assetData] }
    else s

/-- `AssetDataList::AddAsset` (`AssetDataList.cpp:61-77`): while the
registry is loading assets the object path is pushed onto
`_pendingObjectPaths`; otherwise `_AddAssetInternal` runs at once. -/
def addAsset (reg : AssetRegistry) (objectPath : String) (s : State) : State :=
  if reg.isLoadingAssets then
    { s with pendingObjectPaths := s.pendingObjectPaths ++ [objectPath] }
  else addAssetInternal reg objectPath s

/-- `AssetDataList::_HandleFilesLoaded` (`AssetDataList.cpp:35-44`):
runs `_AddAssetInternal` on every pending object path in order, then
clears `_pendingObjectPaths`. -/
def handleFilesLoaded (reg : AssetRegistry) (s : State) : State :=
  let s' := s.pendingObjectPaths.foldl (fun st p => addAssetInternal reg p st) s
  { s' with pendingObjectPaths := [] }

/-- The item contributed (if any) by processing one object path through
`_AddAssetInternal` against a registry that has finished loading. -/
def resolvedItem (reg : AssetRegistry) (objectPath : String) : Option FAssetData :=
  let assetData := reg.getAssetByObjectPath objectPath
  if reg.getAssetNonNull assetData then some assetData else none

/-- A registry that is still loading assets (for concrete runs). -/
def regLoading : AssetRegistry :=
  ⟨true, fun p => ⟨p⟩, fun _ => true⟩

/-- A registry that has finished loading; every object path resolves,
and `GetAsset()` is non-null except for the path "bad". -/
def regReady : AssetRegistry :=
  ⟨false, fun p => ⟨p⟩, fun a => a.fullName != "bad"⟩

end AssetDataList

open VecMath AssetDataList

/-- Two argument orders of mixed 3D addition agree component-wise. -/
theorem add3D_orders_agree (f : FVector) (i : FIntVector) :
    add3D_fi f i = add3D_if i f := by
  simp [add3D_fi, add3D_if, add_comm]

/-- Two argument orders of mixed 4D addition agree component-wise. -/
theorem add4D_orders_agree (f : FVector) (i : FIntVector) :
    add4D_fi f i = add4D_if i f := by
  simp [add4D_fi, add4D_if, add_comm]

/-- Negation on `dvec3` acts component-wise. -/
theorem dvec3_neg_def (v : dvec3) : -v = ⟨-v.x, -v.y, -v.z⟩ := rfl

/-- Negation on `dvec4` acts component-wise. -/
theorem dvec4_neg_def (v : dvec4) : -v = ⟨-v.x, -v.y, -v.z, -v.w⟩ := rfl

/-- Addition on `dvec3` acts component-wise. -/
theorem dvec3_add_def (a b : dvec3) : a + b = ⟨a.x + b.x, a.y + b.y, a.z + b.z⟩ := rfl

/-- Addition on `dvec4` acts component-wise. -/
theorem dvec4_add_def (a b : dvec4) :
    a + b = ⟨a.x + b.x, a.y + b.y, a.z + b.z, a.w + b.w⟩ := rfl

/-- C1 counterexample: at f = (1.5, -2.25, 0.0) and
i = (1000000, -1000000, 0), `add3D(f, i)` is not (1000001.5, -999998.25,
0.0): the y component of the exact double-precision sum is
-2.25 + (-1000000) = -1000002.25, not -999998.25. -/
theorem add_mixed_concrete_value_counterexample :
    add3D_fi ⟨1.5, -2.25, 0⟩ ⟨1000000, -1000000, 0⟩ ≠ ⟨1000001.5, -999998.25, 0⟩ := by
  norm_num [add3D_fi]

/-- C1 (amended): the mixed add operations on `FVector` and `FIntVector`,
in either argument order and in both the 3D and 4D variant, widen both
operands to double precision component-wise and then add in double
precision; at f = (1.5, -2.25, 0.0) and i = (1000000, -1000000, 0),
`add3D(f, i)` is exactly (1000001.5, -1000002.25, 0.0). -/
theorem add_mixed_widens_then_adds :
    (∀ (f : FVector) (i : FIntVector),
        add3D_fi f i = createVector3D_f f + createVector3D_i i ∧
        add3D_if i f = createVector3D_i i + createVector3D_f f ∧
        add4D_fi f i = widen4D f + widen4D_i i ∧
        add4D_if i f = widen4D_i i + widen4D f) ∧
    add3D_fi ⟨1.5, -2.25, 0⟩ ⟨1000000, -1000000, 0⟩ = ⟨1000001.5, -1000002.25, 0⟩ :=
  ⟨fun _ _ => ⟨rfl, rfl, rfl, rfl⟩, by norm_num [add3D_fi]⟩

/-- C2: the three translation-override overloads of `createMatrix4D`
(3-component vector with implicit w = 1.0, 4-component vector, and four
scalars) produce identical double matrices on equivalent inputs. -/
theorem translation_override_overloads_agree :
    ∀ (m : FMatrix) (tx ty tz : ℚ),
      createMatrix4D_vec3 m ⟨tx, ty, tz⟩ = createMatrix4D_vec4 m ⟨tx, ty, tz, 1⟩ ∧
      createMatrix4D_vec3 m ⟨tx, ty, tz⟩ = createMatrix4D_scalars m tx ty tz 1 :=
  fun _ _ _ _ => ⟨rfl, rfl⟩

/-- C3: `createMatrix4D` preserves all 16 component values exactly while
transposing row-major to column-major storage; the identity matrix with
row-major translation row (10, 20, 30, 1) maps to the column-major double
matrix with translation column (10, 20, 30, 1) and identity
rotation/scale block. -/
theorem createMatrix4D_transposes_exactly :
    (∀ m : FMatrix,
        (createMatrix4D m).col0 = m.row0 ∧ (createMatrix4D m).col1 = m.row1 ∧
        (createMatrix4D m).col2 = m.row2 ∧ (createMatrix4D m).col3 = m.row3) ∧
    createMatrix4D ⟨⟨1, 0, 0, 0⟩, ⟨0, 1, 0, 0⟩, ⟨0, 0, 1, 0⟩, ⟨10, 20, 30, 1⟩⟩ =
      ⟨⟨1, 0, 0, 0⟩, ⟨0, 1, 0, 0⟩, ⟨0, 0, 1, 0⟩, ⟨10, 20, 30, 1⟩⟩ :=
  ⟨fun _ => ⟨rfl, rfl, rfl, rfl⟩, rfl⟩

/-- C4: `createTranslationMatrix4D(tx, ty, tz, tw)` equals the
scalar-translation overload of `createMatrix4D` applied to the
single-precision identity matrix. -/
theorem createTranslationMatrix4D_eq_identity_override :
    ∀ tx ty tz tw : ℚ,
      createTranslationMatrix4D tx ty tz tw =
        createMatrix4D_scalars identityFMatrix tx ty tz tw :=
  fun _ _ _ _ => rfl

/-- C5: mixed addition is commutative in its argument order, for both the
3D and the 4D variant, evaluated in double precision. -/
theorem add_mixed_commutative :
    ∀ (f : FVector) (i : FIntVector),
      add3D_fi f i = add3D_if i f ∧ add4D_fi f i = add4D_if i f :=
  fun f i => ⟨add3D_orders_agree f i, add4D_orders_agree f i⟩

/-- C6: the two argument orders of mixed subtraction are exact
component-wise negations of each other, for both the 3D and the 4D
variant. -/
theorem subtract_mixed_antisymmetric :
    ∀ (f : FVector) (i : FIntVector),
      subtract3D_fi f i = -(subtract3D_if i f) ∧
      subtract4D_fi f i = -(subtract4D_if i f) := by
  intro f i
  constructor
  · simp [subtract3D_fi, subtract3D_if, dvec3_neg_def, neg_sub]
  · simp [subtract4D_fi, subtract4D_if, dvec4_neg_def, neg_sub]

/-- C7: the mixed add overloads whose first operand is a `glm` vector
(already double precision) follow the same widen-then-add contract:
both operands taken at double precision and added component-wise. -/
theorem add_mixed_glm_widens_then_adds :
    ∀ (d3 : dvec3) (d4 : dvec4) (i : FIntVector),
      add3D_di d3 i = d3 + createVector3D_i i ∧
      add4D_di d4 i = d4 + widen4D_i i :=
  fun _ _ _ => ⟨rfl, rfl⟩

/-- C8: in every 4-component mixed add and subtract operation, the
integer vector contributes only to the x, y and z components; its
contribution to the homogeneous w component is zero. Each result equals
the same operation with the zero integer vector, offset by the widened
integer vector whose w component is 0. -/
theorem int_vector_contributes_zero_to_w :
    ∀ (f : FVector) (d : dvec4) (i : FIntVector),
      add4D_fi f i = add4D_fi f ⟨0, 0, 0⟩ + widen4D_i i ∧
      add4D_if i f = add4D_if ⟨0, 0, 0⟩ f + widen4D_i i ∧
      add4D_di d i = add4D_di d ⟨0, 0, 0⟩ + widen4D_i i ∧
      subtract4D_fi f i = subtract4D_fi f ⟨0, 0, 0⟩ + -(widen4D_i i) ∧
      subtract4D_if i f = subtract4D_if ⟨0, 0, 0⟩ f + widen4D_i i := by
  intro f d i
  refine ⟨?_, ?_, ?_, ?_, ?_⟩ <;>
    simp [add4D_fi, add4D_if, add4D_di, subtract4D_fi, subtract4D_if,
      widen4D_i, dvec4_add_def, dvec4_neg_def] <;>
    constructorm* _ ∧ _ <;> ring

/-- Processing a list of object paths with `_AddAssetInternal` against a
registry that has finished loading appends, in order, exactly the assets
that resolve to a non-null object. -/
theorem foldl_addAssetInternal_items (reg : AssetRegistry)
    (h : reg.isLoadingAssets = false) :
    ∀ (ps : List String) (s : AssetDataList.State),
      (ps.foldl (fun st p => addAssetInternal reg p st) s).items =
        s.items ++ ps.filterMap (resolvedItem reg) := by
  intro ps
  induction ps with
  | nil => intro s; simp
  | cons p rest ih =>
      intro s
      simp only [List.foldl_cons, List.filterMap_cons, ih]
      unfold addAssetInternal resolvedItem
      rw [h]
      by_cases hc : reg.getAssetNonNull (reg.getAssetByObjectPath p) = true
      · simp [hc]
      · simp [hc]

/-- `_AddAssetInternal` never touches `_pendingObjectPaths`. -/
theorem addAssetInternal_pending_unchanged (reg : AssetRegistry)
    (p : String) (s : AssetDataList.State) :
    (addAssetInternal reg p s).pendingObjectPaths = s.pendingObjectPaths := by
  unfold addAssetInternal
  by_cases hl : reg.isLoadingAssets <;>
    by_cases hc : reg.getAssetNonNull (reg.getAssetByObjectPath p) = true <;>
    simp [hl, hc]

/-- C9: a call to `AddAsset` made while the registry reports
`IsLoadingAssets` appends the object path to `_pendingObjectPaths` and
leaves `_items` unchanged; when `OnFilesLoaded` fires,
`_HandleFilesLoaded` processes every pending path in order (appending
the resolvable assets to `_items` in the order the paths were added) and
leaves `_pendingObjectPaths` empty. -/
theorem addAsset_pending_then_handleFilesLoaded :
    (∀ (reg : AssetRegistry) (s : AssetDataList.State) (p : String),
        reg.isLoadingAssets = true →
          (addAsset reg p s).pendingObjectPaths = s.pendingObjectPaths ++ [p] ∧
          (addAsset reg p s).items = s.items) ∧
    (∀ (reg : AssetRegistry) (s : AssetDataList.State),
        (handleFilesLoaded reg s).pendingObjectPaths = [] ∧
        (reg.isLoadingAssets = false →
          (handleFilesLoaded reg s).items =
            s.items ++ s.pendingObjectPaths.filterMap (resolvedItem reg))) := by
  constructor
  · intro reg s p h
    constructor <;> simp [addAsset, h]
  · intro reg s
    constructor
    · simp [handleFilesLoaded]
    · intro h
      simp [handleFilesLoaded, foldl_addAssetInternal_items reg h]

/-- C9 witness: concrete runs of `AddAsset` against a loading registry
and of `_HandleFilesLoaded` against a ready registry. -/
theorem addAsset_pending_then_handleFilesLoaded_witness :
    ((addAsset regLoading "p1" ⟨[], []⟩).pendingObjectPaths = [] ++ ["p1"] ∧
      (addAsset regLoading "p1" ⟨[], []⟩).items = []) ∧
    ((handleFilesLoaded regReady ⟨["a", "bad"], []⟩).pendingObjectPaths = [] ∧
      (handleFilesLoaded regReady ⟨["a", "bad"], []⟩).items =
        [] ++ ["a", "bad"].filterMap (resolvedItem regReady)) :=
  ⟨addAsset_pending_then_handleFilesLoaded.1 regLoading ⟨[], []⟩ "p1" rfl,
   (addAsset_pending_then_handleFilesLoaded.2 regReady ⟨["a", "bad"], []⟩).1,
   (addAsset_pending_then_handleFilesLoaded.2 regReady ⟨["a", "bad"], []⟩).2 rfl⟩

/-- C10: `_AddAssetInternal` appends an entry to `_items` exactly when
the registry is not loading assets and the resolved asset loads
successfully (`GetAsset` non-null); on either failure branch the whole
state is returned unchanged, and `_pendingObjectPaths` is never
touched. -/
theorem addAssetInternal_appends_iff :
    ∀ (reg : AssetRegistry) (p : String) (s : AssetDataList.State),
      ((addAssetInternal reg p s).items.length = s.items.length + 1 ↔
        reg.isLoadingAssets = false ∧
          reg.getAssetNonNull (reg.getAssetByObjectPath p) = true) ∧
      (reg.isLoadingAssets = false ∧
          reg.getAssetNonNull (reg.getAssetByObjectPath p) = true →
        (addAssetInternal reg p s).items = s.items ++ [reg.getAssetByObjectPath p]) ∧
      (reg.isLoadingAssets = true ∨
          reg.getAssetNonNull (reg.getAssetByObjectPath p) = false →
        addAssetInternal reg p s = s) := by
  intro reg p s
  unfold addAssetInternal
  by_cases hl : reg.isLoadingAssets <;>
    by_cases hc : reg.getAssetNonNull (reg.getAssetByObjectPath p) = true <;>
    simp [hl, hc]

/-- C10 witness: concrete runs of `_AddAssetInternal` covering the
success branch, the still-loading branch and the null-asset branch. -/
theorem addAssetInternal_appends_iff_witness :
    (addAssetInternal regReady "good" ⟨[], []⟩).items.length =
        ([] : List FAssetData).length + 1 ∧
      addAssetInternal regLoading "good" ⟨[], []⟩ = ⟨[], []⟩ ∧
      addAssetInternal regReady "bad" ⟨[], []⟩ = ⟨[], []⟩ :=
  ⟨((addAssetInternal_appends_iff regReady "good" ⟨[], []⟩).1).mpr
      ⟨rfl, by decide⟩,
   ((addAssetInternal_appends_iff regLoading "good" ⟨[], []⟩).2.2) (Or.inl rfl),
   ((addAssetInternal_appends_iff regReady "bad" ⟨[], []⟩).2.2)
      (Or.inr (by decide))⟩
